import Mathlib

/-!
Verification of the ETF price-tracker pipeline (src/handler.py,
src/line_notifier.py, src/s3_storage.py) against its design spec.

The Python code is shallowly embedded: pandas DataFrames become explicit
index/column structures over `Option ℚ` cells (`none` models NaN/missing),
Python exceptions become `Except` errors, the external effects
(yfinance downloads, HTTP posts, clock, sleeps) become oracle functions or
counters, and floats become rationals with Python's round-half-to-even.
-/

namespace ETFTracker

/-- A single close-price cell; `none` models a NaN/missing value. -/
abbrev Cell := Option ℚ

/-- pandas `pd.isna` on a cell. -/
def isNA (c : Cell) : Bool := c.isNone

/-- One top-level column of a downloaded DataFrame.  With `group_by="ticker"`
the top-level key is a ticker and the value is a sub-frame of named columns
(`frame`); otherwise the value is a plain series of cells (`series`). -/
inductive Col where
  | frame (sub : List (String × List Cell))
  | series (vals : List Cell)
deriving Repr, DecidableEq

/-- A pandas DataFrame as the handler uses it: a date index (dates as day
numbers) plus string-keyed top-level columns. -/
structure DataFrame where
  index : List ℤ
  cols : List (String × Col)
deriving Repr, DecidableEq

/-- pandas `df.empty`: true when either axis has length zero. -/
def DataFrame.isEmptyDF (d : DataFrame) : Bool :=
  d.index.isEmpty || d.cols.isEmpty

/-- Lookup `data[key]` on top-level columns; `none` models a `KeyError`. -/
def DataFrame.get? (d : DataFrame) (k : String) : Option Col :=
  d.cols.lookup k

/-- The `pd.DataFrame()` default constructed at handler.py:238. -/
def DataFrame.empty0 : DataFrame := ⟨[], []⟩

/-- Python exceptions that the embedded code can raise. -/
inductive PyErr where
  | keyError
  | indexError
deriving Repr, DecidableEq

/-- The `tickers` argument of `_download_with_retry`: `str | Sequence[str]`. -/
abbrev Tickers := String ⊕ List String

/-- The per-ticker body of the `for ticker in tickers` loop of
`_has_nan_values` (handler.py:266-281): `KeyError` on `data[ticker]` means
NaN; a sub-frame without a "Close" column means NaN; otherwise the last
entry of the Close column (resp. the bare series) is tested with `pd.isna`.
`iloc[-1]` on an empty series raises `IndexError`. -/
def tickerNan (data : DataFrame) (t : String) : Except PyErr Bool :=
  match data.get? t with
  | none => .ok true
  | some (.frame sub) =>
    match sub.lookup "Close" with
    | none => .ok true
    | some col =>
      match col.getLast? with
      | none => .error .indexError
      | some c => .ok (isNA c)
  | some (.series vals) =>
    match vals.getLast? with
    | none => .error .indexError
    | some c => .ok (isNA c)

/-- The ticker loop of `_has_nan_values`: first ticker that reports NaN
short-circuits with `True`; a raised exception propagates. -/
def hasNanLoop (data : DataFrame) : List String → Except PyErr Bool
  | [] => .ok false
  | t :: rest =>
    match tickerNan data t with
    | .error e => .error e
    | .ok true => .ok true
    | .ok false => hasNanLoop data rest

/-- The single-string branch of `_has_nan_values` (handler.py:255-264):
`data["Close"]` (KeyError → True), `.iloc[:, 0]` when it is a sub-frame
(no columns → IndexError), then `pd.isna` of `.iloc[-1]`. -/
def singleTickerNan (data : DataFrame) : Except PyErr Bool :=
  match data.get? "Close" with
  | none => .ok true
  | some (.frame sub) =>
    match sub.head? with
    | none => .error .indexError
    | some p =>
      match p.2.getLast? with
      | none => .error .indexError
      | some c => .ok (isNA c)
  | some (.series vals) =>
    match vals.getLast? with
    | none => .error .indexError
    | some c => .ok (isNA c)

/-- Model of `_has_nan_values(data, tickers)` (handler.py:241-282). -/
def hasNanValues (data : DataFrame) : Tickers → Except PyErr Bool
  | .inl _ =>
    if data.isEmptyDF then .ok true else singleTickerNan data
  | .inr ts =>
    if data.isEmptyDF then .ok true else hasNanLoop data ts

/-- Retry loop of `_download_with_retry` (handler.py:226-238).  `fetch a`
is the result of the `yf.download` call on the (a+1)-th attempt; `fuel` is
the number of attempts still allowed, `a` the number already made, `w` the
number of `time.sleep` waits performed so far.  Returns the chosen
DataFrame together with the total wait count; an exception escaping
`_has_nan_values` propagates. -/
def downloadGo (fetch : ℕ → DataFrame) (tickers : Tickers) :
    ℕ → ℕ → ℕ → Except PyErr (DataFrame × ℕ)
  | 0, _, w => .ok (DataFrame.empty0, w)
  | fuel + 1, a, w =>
    let data := fetch a
    match hasNanValues data tickers with
    | .error e => .error e
    | .ok false => .ok (data, w)
    | .ok true =>
      if fuel = 0 then .ok (data, w)
      else downloadGo fetch tickers fuel (a + 1) (w + 1)

/-- Model of `_download_with_retry` (handler.py:191-238),
with the download responses supplied by the oracle `fetch`. -/
def downloadWithRetry (fetch : ℕ → DataFrame) (tickers : Tickers)
    (maxAttempts : ℕ) : Except PyErr (DataFrame × ℕ) :=
  downloadGo fetch tickers maxAttempts 0 0

/-- Model of `_is_market_closed` (handler.py:285-297): compares the last index date
with (today − 1); `index[-1]` on an empty frame raises `IndexError`. -/
def isMarketClosed (data : DataFrame) (today : ℤ) : Except PyErr Bool :=
  match data.index.getLast? with
  | none => .error .indexError
  | some latest => .ok (decide (latest ≠ today - 1))

/-! ### Metric computation (`_calculate_daily_change`, `_calculate_weekly_change`) -/

/-- Round-half-to-even to an integer, as Python's builtin `round`. -/
def roundHalfEven (q : ℚ) : ℤ :=
  let f := Int.floor q
  let frac := q - f
  if frac < 1 / 2 then f
  else if 1 / 2 < frac then f + 1
  else if f % 2 = 0 then f else f + 1

/-- Python `round(x, 2)`. -/
def pyRound2 (q : ℚ) : ℚ := (roundHalfEven (q * 100) : ℚ) / 100

/-- pandas `Series.dropna`: the valid (non-missing) observations in order. -/
def validData (closeCol : List Cell) : List ℚ := closeCol.filterMap id

/-- pandas `Series.iloc[i]` with Python indexing (negative counts from the
end); `none` models the `IndexError` raise. -/
def iloc (l : List ℚ) (i : ℤ) : Option ℚ :=
  if i < 0 then l.reverse[(-i).toNat - 1]? else l[i.toNat]?

/-- Model of `_calculate_daily_change` (handler.py:304-325) on the Close column:
drop NaNs, return 0.0 when fewer than two valid points remain, else the
rounded percentage change between `iloc[-1]` and `iloc[-2]`.  The final
wildcard is unreachable: both lookups succeed when the length is ≥ 2. -/
def calculateDailyChange (closeCol : List Cell) : ℚ :=
  let valid := validData closeCol
  if valid.length < 2 then 0
  else
    match iloc valid (-1), iloc valid (-2) with
    | some latest, some previous => pyRound2 (((latest - previous) / previous) * 100)
    | _, _ => 0

/-- Model of `_calculate_weekly_change` (handler.py:328-349): drop NaNs, return 0.0
when fewer than two valid points remain, else compare `iloc[-1]` with
`iloc[-5]` when at least five valid points exist and with `iloc[0]`
otherwise.  The final wildcard is unreachable for length ≥ 2. -/
def calculateWeeklyChange (closeCol : List Cell) : ℚ :=
  let valid := validData closeCol
  if valid.length < 2 then 0
  else
    let oldest := if 5 ≤ valid.length then iloc valid (-5) else iloc valid 0
    match oldest, iloc valid (-1) with
    | some oldestPrice, some currentPrice =>
        pyRound2 (((currentPrice - oldestPrice) / oldestPrice) * 100)
    | _, _ => 0

/-! ### LINE notifier (`LineMessagingNotifier.send_messages`) -/

/-- A message dict as the notifier receives it; absent keys are `none`
(`dict.get` with a default reproduces the Python access pattern). -/
structure Message where
  type_ : String
  text : Option String
  originalContentUrl : Option String
  previewImageUrl : Option String
deriving Repr, DecidableEq

/-- A text message dict `{"type": "text", "text": body}`. -/
def Message.mkText (body : String) : Message := ⟨"text", some body, none, none⟩

/-- An image message dict with original and preview URLs. -/
def Message.mkImage (url : String) : Message := ⟨"image", none, some url, some url⟩

/-- The outcome of one `requests.post` call: either an HTTP response with a
status code and body, or a raised `requests.RequestException`. -/
inductive HttpOutcome where
  | response (status : ℕ) (body : String)
  | requestException (msg : String)
deriving Repr, DecidableEq

/-- The exceptions `send_messages` can raise: the HTTPS-validation
`ValueError`, the plain `Exception` for a non-retryable status, the
`LineMessagingRetryableError` after exhausting retries on a retryable
status, a `requests.RequestException` after exhausting retries on network
failures, and the fallback raise when the loop never ran. -/
inductive SendError where
  | valueError (url : String)
  | apiError (status : ℕ)
  | retryableError (status : ℕ)
  | requestError (msg : String)
  | noAttempts
deriving Repr, DecidableEq

/-- Observable trace of one `send_messages` call: the outcome, the number
of `requests.post` calls made, and the number of `time.sleep` waits. -/
structure SendTrace where
  outcome : Except SendError Unit
  attempts : ℕ
  waits : ℕ
deriving Repr

instance : DecidableEq (Except SendError Unit) := fun a b =>
  match a, b with
  | .ok (), .ok () => isTrue rfl
  | .ok (), .error _ => isFalse (by simp)
  | .error _, .ok () => isFalse (by simp)
  | .error e, .error f =>
    if h : e = f then isTrue (by rw [h]) else isFalse (by simp [h])

instance : DecidableEq SendTrace := fun a b =>
  if h : a.outcome = b.outcome ∧ a.attempts = b.attempts ∧ a.waits = b.waits then
    isTrue (by cases a; cases b; simp_all)
  else
    isFalse (by cases a; cases b; simp_all)

/-- Python `str.startswith`, at the character level (so that proofs can
evaluate it). -/
def strStartsWith (s p : String) : Bool := p.data.isPrefixOf s.data

/-- The HTTPS validation loop (line_notifier.py:82-88): the first image
message whose `originalContentUrl` (default `""`) does not start with
`https://` triggers a `ValueError`. -/
def findInvalidImage (messages : List Message) : Option Message :=
  messages.find? fun m =>
    m.type_ == "image" && !(strStartsWith (m.originalContentUrl.getD "") "https://")

/-- The retry loop of `send_messages` (line_notifier.py:95-124).
`respond a` is the outcome of the post on the (a+1)-th attempt; `fuel` is
the number of loop iterations left, `a` the attempts already made, `w` the
sleeps already performed.  Status 200 returns success; a 4xx status other
than 429 raises a plain `Exception` that no handler catches; any other
non-200 status raises `LineMessagingRetryableError`, and a network error
raises `requests.RequestException` — both of which sleep and continue
unless this was the last iteration, in which case they re-raise. -/
def sendGo (respond : ℕ → HttpOutcome) : ℕ → ℕ → ℕ → SendTrace
  | 0, a, w => ⟨.error .noAttempts, a, w⟩
  | fuel + 1, a, w =>
    match respond a with
    | .response s _ =>
      if s = 200 then ⟨.ok (), a + 1, w⟩
      else if 400 ≤ s ∧ s < 500 ∧ s ≠ 429 then ⟨.error (.apiError s), a + 1, w⟩
      else if fuel = 0 then ⟨.error (.retryableError s), a + 1, w⟩
      else sendGo respond fuel (a + 1) (w + 1)
    | .requestException msg =>
      if fuel = 0 then ⟨.error (.requestError msg), a + 1, w⟩
      else sendGo respond fuel (a + 1) (w + 1)

/-- Outcomes the spec calls retryable: HTTP 429, any 5xx, or a
network-level failure. -/
def isRetryableOutcome : HttpOutcome → Bool
  | .response s _ => s = 429 || 500 ≤ s
  | .requestException _ => true

/-- The error surfaced when retries are exhausted on the given last
outcome (the re-raise at line_notifier.py:116/122). -/
def exhaustionError : HttpOutcome → SendError
  | .response s _ => .retryableError s
  | .requestException msg => .requestError msg

/-- Whether a `send_messages` outcome is the HTTPS-validation
`ValueError`. -/
def isValueErrorOutcome : Except SendError Unit → Bool
  | .error (.valueError _) => true
  | _ => false

/-- Model of `send_messages(messages)` (line_notifier.py:69-124) with the network
supplied by the oracle `respond` and the configured retry budget
(`self.max_retries`, 3 in the source) passed explicitly.  Validation
happens before the first post: a trace with 0 attempts and 0 waits. -/
def sendMessages (messages : List Message) (respond : ℕ → HttpOutcome)
    (maxRetries : ℕ) : SendTrace :=
  match findInvalidImage messages with
  | some m => ⟨.error (.valueError (m.originalContentUrl.getD "")), 0, 0⟩
  | none => sendGo respond maxRetries 0 0

/-- The value of `self.max_retries` as set in `LineMessagingNotifier.__init__`. -/
def maxRetriesDefault : ℕ := 3

/-! ### S3 storage (`S3Storage`) -/

/-- A calendar date as `datetime.datetime` provides it to `strftime`. -/
structure PyDate where
  year : ℕ
  month : ℕ
  day : ℕ
deriving Repr, DecidableEq

/-- Zero-padded decimal rendering, as `strftime` "%Y"/"%m"/"%d". -/
def zeroPad (width n : ℕ) : String :=
  let s := toString n
  String.pushn "" '0' (width - s.length) ++ s

/-- Model of `S3Storage.build_s3_key` (s3_storage.py:41-57). -/
def buildS3Key (filename : String) (now : PyDate) : String :=
  "charts/" ++ zeroPad 4 now.year ++ "/" ++ zeroPad 2 now.month ++ "/"
    ++ zeroPad 2 now.day ++ "/" ++ filename

/-- A presigned GET URL request as handed to
`generate_presigned_url(ClientMethod="get_object", …)`. -/
structure PresignedUrl where
  bucket : String
  key : String
  expiresIn : ℕ
deriving Repr, DecidableEq

/-- Model of `S3Storage.create_presigned_url` (s3_storage.py:88-116); the source
default for `expires_in` is 3600 seconds. -/
def createPresignedUrl (bucket key : String) (expiresIn : ℕ) : PresignedUrl :=
  ⟨bucket, key, expiresIn⟩

/-- Model of `S3Storage.upload_and_get_url` (s3_storage.py:118-142): builds the
date-partitioned key, uploads, and calls `create_presigned_url(s3_key)`
with its default expiry of 3600 seconds.  The method accepts no expiry
argument.  Returns the upload key and the presign request. -/
def uploadAndGetUrl (bucket filepath filenameHint : String) (now : PyDate) :
    String × PresignedUrl :=
  (buildS3Key filenameHint now, createPresignedUrl bucket (buildS3Key filenameHint now) 3600)

/-- The keyword parameters `S3Storage.upload_and_get_url` accepts
(s3_storage.py:118-119). -/
def uploadAndGetUrlAcceptedKwargs : List String :=
  ["filepath", "filename_hint", "now"]

/-- The keyword arguments the handler passes at handler.py:139-144. -/
def handlerUploadCallKwargs : List String :=
  ["filepath", "filename_hint", "now", "expires_in"]

/-! ### Handler pipeline (`lambda_handler`) -/

/-- The body of the handler's structured Lambda response. -/
structure RunResult where
  notificationSent : Bool
  tickerCount : ℕ
  message : String
deriving Repr, DecidableEq

/-- The early-exit body returned when `_is_market_closed` holds
(handler.py:38-46). -/
def marketClosedResult : RunResult := ⟨false, 0, "Market is closed today"⟩

/-- The success body returned at handler.py:180-188. -/
def successResult (tickerCount : ℕ) : RunResult :=
  ⟨true, tickerCount, "Stock monitoring completed successfully"⟩

/-- An error escaping `lambda_handler`: a propagated Python exception from
the acquisition stage or an exception raised by the text delivery. -/
inductive RunError where
  | py (e : PyErr)
  | send (e : SendError)
deriving Repr, DecidableEq

/-- What a stage of the run did: how many text and image `send_messages`
calls were made, and the value returned (or exception raised). -/
structure RunTrace where
  textSends : ℕ
  imageSends : ℕ
  result : Except RunError RunResult
deriving Repr

/-- Outcome of the chart-publishing `try` block (handler.py:120-156):
either a presigned URL, or one of the three caught exception classes
(`S3StorageError`, the configuration `ValueError`, or any other
`Exception`). -/
inductive ChartPublishOutcome where
  | ok (url : String)
  | s3StorageError (msg : String)
  | valueError (msg : String)
  | otherError (msg : String)
deriving Repr, DecidableEq

/-- Whether the publish attempt raised (any of the three caught classes). -/
def ChartPublishOutcome.isError : ChartPublishOutcome → Bool
  | .ok _ => false
  | _ => true

/-- The delivery stage of `lambda_handler` (handler.py:118-188), with the
publish outcome and the two `send_messages` results supplied as oracles.
All three publish exception classes are caught and only logged, leaving
`image_url` unset; the text send is then made unconditionally and an
exception from it propagates; when an image URL exists the image send is
made inside a `try` whose `except Exception` swallows any error; finally
the success body is returned. -/
def runDeliveryStage (publish : ChartPublishOutcome)
    (textSend : Except SendError Unit) (imageSend : String → Except SendError Unit)
    (tickerCount : ℕ) : RunTrace :=
  let imageUrl : Option String :=
    match publish with
    | .ok url => some url
    | .s3StorageError _ => none
    | .valueError _ => none
    | .otherError _ => none
  match textSend with
  | .error e => ⟨1, 0, .error (.send e)⟩
  | .ok _ =>
    match imageUrl with
    | some url =>
      match imageSend url with
      | .ok _ => ⟨1, 1, .ok (successResult tickerCount)⟩
      | .error _ => ⟨1, 1, .ok (successResult tickerCount)⟩
    | none => ⟨1, 0, .ok (successResult tickerCount)⟩

/-- The post-download part of `lambda_handler` (handler.py:37-188): the
market-closed check short-circuits with the closed body; otherwise the
metric/format/delivery work — abstracted as `downstream` — runs on the
downloaded data. -/
def runAcquisitionStage (data : DataFrame) (today : ℤ)
    (downstream : DataFrame → RunTrace) : RunTrace :=
  match isMarketClosed data today with
  | .error e => ⟨0, 0, .error (.py e)⟩
  | .ok true => ⟨0, 0, .ok marketClosedResult⟩
  | .ok false => downstream data

/-- The ticker list of handler.py:24. -/
def handlerTargets : Tickers := .inr ["VT", "VOO", "QQQ", "JPY=X"]

/-- Model of `lambda_handler` from the download through the market-closed gate
(handler.py:28-46), with downloads supplied by `fetch` and everything
after the gate abstracted as `downstream`. -/
def lambdaRun (fetch : ℕ → DataFrame) (today : ℤ)
    (downstream : DataFrame → RunTrace) (maxAttempts : ℕ) : RunTrace :=
  match downloadWithRetry fetch handlerTargets maxAttempts with
  | .error e => ⟨0, 0, .error (.py e)⟩
  | .ok (data, _) => runAcquisitionStage data today downstream

/-! ## Helper lemmas -/

theorem iloc_m1 (l : List ℚ) : iloc l (-1) = l.reverse[0]? := by
  norm_num [iloc]

theorem iloc_m2 (l : List ℚ) : iloc l (-2) = l.reverse[1]? := by
  norm_num [iloc]
  rfl

theorem iloc_m5 (l : List ℚ) : iloc l (-5) = l.reverse[4]? := by
  norm_num [iloc]
  rfl

theorem iloc_zero (l : List ℚ) : iloc l 0 = l[0]? := by
  norm_num [iloc]

/-! ## Claim theorems -/

/-- C6: for every price series with at least 2 valid (non-NaN)
observations, `_calculate_daily_change` returns
`round(((latest - prev) / prev) * 100, 2)` computed from the two most
recent valid observations — and it depends only on the valid
observations, so intervening or trailing missing points are irrelevant;
with fewer than 2 valid observations it returns 0.0. -/
theorem daily_change_spec (closeCol : List Cell) :
    ((validData closeCol).length < 2 → calculateDailyChange closeCol = 0) ∧
    (∀ latest previous rest,
      (validData closeCol).reverse = latest :: previous :: rest →
      calculateDailyChange closeCol = pyRound2 (((latest - previous) / previous) * 100)) ∧
    (∀ other : List Cell, validData other = validData closeCol →
      calculateDailyChange other = calculateDailyChange closeCol) := by
  refine ⟨?_, ?_, ?_⟩
  · intro h
    simp only [calculateDailyChange]
    rw [if_pos h]
  · intro latest previous rest h
    have hlen : ¬ (validData closeCol).length < 2 := by
      have := congrArg List.length h
      simp at this
      omega
    simp only [calculateDailyChange]
    rw [if_neg hlen, iloc_m1, iloc_m2, h]
    simp
  · intro other h
    simp only [calculateDailyChange, h]

/-- C6 witness: a concrete series with NaN gaps; the two most recent
valid closes are 95 and 93. -/
theorem daily_change_spec_witness :
    calculateDailyChange [some 100, none, some 98, some 95, none, some 93, none] =
      pyRound2 (((93 - 95) / 95) * 100) :=
  (daily_change_spec [some 100, none, some 98, some 95, none, some 93, none]).2.1
    93 95 [98, 100] rfl

/-- C7: `_calculate_weekly_change` compares the most recent valid
observation against the 5th-most-recent valid one when at least 5 valid
points exist and against the oldest valid one otherwise, rounding the
percentage change to 2 decimals; with fewer than 2 valid observations it
returns 0.0. -/
theorem weekly_change_spec (closeCol : List Cell) :
    ((validData closeCol).length < 2 → calculateWeeklyChange closeCol = 0) ∧
    (∀ current p2 p3 p4 oldest rest,
      (validData closeCol).reverse = current :: p2 :: p3 :: p4 :: oldest :: rest →
      calculateWeeklyChange closeCol = pyRound2 (((current - oldest) / oldest) * 100)) ∧
    (∀ current rrest first tail,
      (validData closeCol).reverse = current :: rrest →
      validData closeCol = first :: tail →
      2 ≤ (validData closeCol).length →
      (validData closeCol).length < 5 →
      calculateWeeklyChange closeCol = pyRound2 (((current - first) / first) * 100)) := by
  refine ⟨?_, ?_, ?_⟩
  · intro h
    simp only [calculateWeeklyChange]
    rw [if_pos h]
  · intro current p2 p3 p4 oldest rest h
    have hlen : (validData closeCol).length = rest.length + 5 := by
      have := congrArg List.length h
      simp at this
      omega
    simp only [calculateWeeklyChange]
    rw [if_neg (by omega), if_pos (by omega), iloc_m5, iloc_m1, h]
    simp
  · intro current rrest first tail hrev hcons h2 h5
    simp only [calculateWeeklyChange]
    rw [if_neg (by omega), if_neg (by omega), iloc_zero, iloc_m1, hrev, hcons]
    simp

/-- C7 witness: the spec's scenario-A series [100, 98, 99, 97, 95, 93]
has 6 valid points, so the 5th-most-recent (98) is the comparison base. -/
theorem weekly_change_spec_witness :
    calculateWeeklyChange [some 100, some 98, some 99, some 97, some 95, some 93] =
      pyRound2 (((93 - 98) / 98) * 100) :=
  (weekly_change_spec [some 100, some 98, some 99, some 97, some 95, some 93]).2.1
    93 95 97 99 98 [100] rfl

/-- C1: in the delivery stage, every chart-publishing failure
(`S3StorageError`, configuration `ValueError`, or any other exception) is
absorbed: the text notification is still sent exactly once and the run
returns the success body with `notification_sent = True`; indeed the text
send count is 1 for every publish outcome, so an image-path failure never
prevents, duplicates, or fails the text path. -/
theorem delivery_isolates_image_failures (publish : ChartPublishOutcome)
    (textSend : Except SendError Unit) (imageSend : String → Except SendError Unit)
    (tickerCount : ℕ) :
    (runDeliveryStage publish textSend imageSend tickerCount).textSends = 1 ∧
    (publish.isError = true → textSend = .ok () →
      runDeliveryStage publish textSend imageSend tickerCount =
        ⟨1, 0, .ok (successResult tickerCount)⟩) := by
  constructor
  · cases publish <;> cases textSend <;>
      simp [runDeliveryStage] <;>
      rename_i url _ <;> cases imageSend url <;> simp
  · intro herr htext
    subst htext
    cases publish with
    | ok url => simp [ChartPublishOutcome.isError] at herr
    | s3StorageError m => simp [runDeliveryStage]
    | valueError m => simp [runDeliveryStage]
    | otherError m => simp [runDeliveryStage]

/-- C1 witness: a concrete S3 failure with a succeeding text path. -/
theorem delivery_isolates_image_failures_witness :
    (runDeliveryStage (.s3StorageError "NoSuchBucket") (.ok ())
        (fun _ => .error (.apiError 400)) 3).textSends = 1 ∧
    runDeliveryStage (.s3StorageError "NoSuchBucket") (.ok ())
        (fun _ => .error (.apiError 400)) 3 = ⟨1, 0, .ok (successResult 3)⟩ :=
  ⟨(delivery_isolates_image_failures (.s3StorageError "NoSuchBucket") (.ok ())
      (fun _ => .error (.apiError 400)) 3).1,
   (delivery_isolates_image_failures (.s3StorageError "NoSuchBucket") (.ok ())
      (fun _ => .error (.apiError 400)) 3).2 rfl rfl⟩

/-- C8: `_is_market_closed` returns true iff the series' latest index date
differs from (today − 1); and whenever it is true the handler
short-circuits with `notification_sent = False`, `ticker_count = 0`,
making no downstream computation or delivery (the trace is the same for
every downstream continuation and counts zero sends). -/
theorem market_closed_gate (data : DataFrame) (today latest : ℤ)
    (h : data.index.getLast? = some latest) :
    isMarketClosed data today = .ok (decide (latest ≠ today - 1)) ∧
    (latest ≠ today - 1 →
      ∀ downstream : DataFrame → RunTrace,
        runAcquisitionStage data today downstream = ⟨0, 0, .ok marketClosedResult⟩) := by
  have hmc : isMarketClosed data today = .ok (decide (latest ≠ today - 1)) := by
    simp [isMarketClosed, h]
  refine ⟨hmc, fun hne downstream => ?_⟩
  simp [runAcquisitionStage, hmc, hne]

/-- C8 witness: a series whose latest date (day 97) is three days stale
relative to today (day 100) is classified closed and short-circuits. -/
theorem market_closed_gate_witness :
    isMarketClosed ⟨[95, 96, 97], []⟩ 100 = .ok (decide ((97 : ℤ) ≠ 100 - 1)) ∧
    runAcquisitionStage ⟨[95, 96, 97], []⟩ 100 (fun _ => ⟨1, 1, .ok (successResult 4)⟩) =
      ⟨0, 0, .ok marketClosedResult⟩ :=
  ⟨(market_closed_gate ⟨[95, 96, 97], []⟩ 100 97 rfl).1,
   (market_closed_gate ⟨[95, 96, 97], []⟩ 100 97 rfl).2 (by decide)
     (fun _ => ⟨1, 1, .ok (successResult 4)⟩)⟩

/-- C9 (bug): the handler's call site passes the keyword argument
`expires_in=86400`, but `S3Storage.upload_and_get_url` accepts no such
parameter — the call raises `TypeError` in Python — and the method itself
always presigns with the 3600-second default, never 86400; the
date-partitioned key format itself is as specified. -/
theorem upload_expiry_mismatch :
    ("expires_in" ∈ handlerUploadCallKwargs ∧
      "expires_in" ∉ uploadAndGetUrlAcceptedKwargs) ∧
    (∀ bucket filepath hint now,
      (uploadAndGetUrl bucket filepath hint now).2.expiresIn = 3600 ∧
      (uploadAndGetUrl bucket filepath hint now).2.expiresIn ≠ 86400 ∧
      (uploadAndGetUrl bucket filepath hint now).1 = buildS3Key hint now) ∧
    buildS3Key "vt_chart.png" ⟨2026, 1, 12⟩ = "charts/2026/01/12/vt_chart.png" := by
  refine ⟨⟨by decide, by decide⟩,
    fun bucket filepath hint now =>
      ⟨rfl, by simp [uploadAndGetUrl, createPresignedUrl], rfl⟩, ?_⟩
  rfl

/-- C5: any payload list containing an image payload whose
`originalContentUrl` does not start with `https://` makes `send_messages`
raise the validation `ValueError` with zero posts and zero retry waits,
even when the offending payload is preceded by other payloads. -/
theorem https_validation (pre post : List Message) (m : Message)
    (hty : m.type_ = "image")
    (hurl : strStartsWith (m.originalContentUrl.getD "") "https://" = false)
    (respond : ℕ → HttpOutcome) (maxRetries : ℕ) :
    (sendMessages (pre ++ m :: post) respond maxRetries).attempts = 0 ∧
    (sendMessages (pre ++ m :: post) respond maxRetries).waits = 0 ∧
    isValueErrorOutcome (sendMessages (pre ++ m :: post) respond maxRetries).outcome = true := by
  have hfind : (findInvalidImage (pre ++ m :: post)).isSome := by
    rw [findInvalidImage, List.find?_isSome]
    exact ⟨m, by simp, by simp [hty, hurl]⟩
  obtain ⟨m2, hm2⟩ := Option.isSome_iff_exists.mp hfind
  simp [sendMessages, hm2, isValueErrorOutcome]

/-- C5 witness: a text payload followed by an `http://` image payload is
rejected with no network call. -/
theorem https_validation_witness :
    (sendMessages [Message.mkText "hi", Message.mkImage "http://bucket/x.png"]
        (fun _ => .response 200 "ok") 3).attempts = 0 ∧
    (sendMessages [Message.mkText "hi", Message.mkImage "http://bucket/x.png"]
        (fun _ => .response 200 "ok") 3).waits = 0 ∧
    isValueErrorOutcome (sendMessages [Message.mkText "hi", Message.mkImage "http://bucket/x.png"]
        (fun _ => .response 200 "ok") 3).outcome = true :=
  https_validation [Message.mkText "hi"] [] (Message.mkImage "http://bucket/x.png")
    rfl (by decide) (fun _ => .response 200 "ok") 3

theorem sendGo_succ_response (respond : ℕ → HttpOutcome) (fuel a w s : ℕ)
    (b : String) (hr : respond a = .response s b) :
    sendGo respond (fuel + 1) a w =
      if s = 200 then ⟨.ok (), a + 1, w⟩
      else if 400 ≤ s ∧ s < 500 ∧ s ≠ 429 then ⟨.error (.apiError s), a + 1, w⟩
      else if fuel = 0 then ⟨.error (.retryableError s), a + 1, w⟩
      else sendGo respond fuel (a + 1) (w + 1) := by
  rw [sendGo, hr]

theorem sendGo_succ_exception (respond : ℕ → HttpOutcome) (fuel a w : ℕ)
    (m : String) (hr : respond a = .requestException m) :
    sendGo respond (fuel + 1) a w =
      if fuel = 0 then ⟨.error (.requestError m), a + 1, w⟩
      else sendGo respond fuel (a + 1) (w + 1) := by
  rw [sendGo, hr]

theorem sendGo_ok_exists_200 (respond : ℕ → HttpOutcome) :
    ∀ fuel a w, (sendGo respond fuel a w).outcome = .ok () →
      ∃ k, k < fuel ∧ ∃ b, respond (a + k) = .response 200 b := by
  intro fuel
  induction fuel with
  | zero => intro a w h; simp [sendGo] at h
  | succ f ih =>
    intro a w h
    cases hr : respond a with
    | response s b =>
      rw [sendGo_succ_response respond f a w s b hr] at h
      by_cases h200 : s = 200
      · exact ⟨0, by omega, b, by rw [Nat.add_zero, hr, h200]⟩
      · rw [if_neg h200] at h
        by_cases hnr : 400 ≤ s ∧ s < 500 ∧ s ≠ 429
        · rw [if_pos hnr] at h; simp at h
        · rw [if_neg hnr] at h
          by_cases hf : f = 0
          · rw [if_pos hf] at h; simp at h
          · rw [if_neg hf] at h
            obtain ⟨k, hk, b2, hb2⟩ := ih (a + 1) (w + 1) h
            exact ⟨k + 1, by omega, b2,
              by rw [show a + (k + 1) = a + 1 + k from by omega]; exact hb2⟩
    | requestException m =>
      rw [sendGo_succ_exception respond f a w m hr] at h
      by_cases hf : f = 0
      · rw [if_pos hf] at h; simp at h
      · rw [if_neg hf] at h
        obtain ⟨k, hk, b2, hb2⟩ := ih (a + 1) (w + 1) h
        exact ⟨k + 1, by omega, b2,
          by rw [show a + (k + 1) = a + 1 + k from by omega]; exact hb2⟩

theorem sendGo_retry_step (respond : ℕ → HttpOutcome) (fuel a w : ℕ) (hf : fuel ≠ 0)
    (h : isRetryableOutcome (respond a) = true) :
    sendGo respond (fuel + 1) a w = sendGo respond fuel (a + 1) (w + 1) := by
  cases hr : respond a with
  | response s b =>
    rw [hr] at h
    simp only [isRetryableOutcome] at h
    have hs : s = 429 ∨ 500 ≤ s := by simpa using h
    rw [sendGo_succ_response respond fuel a w s b hr,
        if_neg (by omega), if_neg (by omega), if_neg hf]
  | requestException m =>
    rw [sendGo_succ_exception respond fuel a w m hr, if_neg hf]

theorem sendGo_retry_last (respond : ℕ → HttpOutcome) (a w : ℕ)
    (h : isRetryableOutcome (respond a) = true) :
    sendGo respond 1 a w = ⟨.error (exhaustionError (respond a)), a + 1, w⟩ := by
  cases hr : respond a with
  | response s b =>
    rw [hr] at h
    simp only [isRetryableOutcome] at h
    have hs : s = 429 ∨ 500 ≤ s := by simpa using h
    rw [sendGo_succ_response respond 0 a w s b hr,
        if_neg (by omega), if_neg (by omega), if_pos rfl]
    rfl
  | requestException m =>
    rw [sendGo_succ_exception respond 0 a w m hr, if_pos rfl]
    rfl

/-- C4: per delivery call of `send_messages` with the configured budget of
3 attempts — (i) success happens only when some attempt receives HTTP
status exactly 200, so no other 2xx counts as success; (ii) a first
response with status in [400, 500) other than 429 yields exactly 1 attempt
and the non-retryable plain exception; in particular (iii) a 404 yields
exactly 1 attempt, no waits, and a non-retryable failure; (iv) a 429
followed by a 200 yields exactly 2 attempts, 1 retry wait, and overall
success; (v) when every attempt receives a retryable outcome (429, 5xx,
or a network failure) the call makes all 3 attempts with 2 waits and
surfaces the last attempt error. -/
theorem send_retry_classification (messages : List Message) (respond : ℕ → HttpOutcome)
    (hval : findInvalidImage messages = none) :
    ((sendMessages messages respond 3).outcome = .ok () →
      ∃ k, k < 3 ∧ ∃ b, respond k = .response 200 b) ∧
    (∀ s b, 400 ≤ s → s < 500 → s ≠ 429 → respond 0 = .response s b →
      sendMessages messages respond 3 = ⟨.error (.apiError s), 1, 0⟩) ∧
    (∀ b, respond 0 = .response 404 b →
      sendMessages messages respond 3 = ⟨.error (.apiError 404), 1, 0⟩) ∧
    (∀ b b2, respond 0 = .response 429 b → respond 1 = .response 200 b2 →
      sendMessages messages respond 3 = ⟨.ok (), 2, 1⟩) ∧
    ((∀ a, a < 3 → isRetryableOutcome (respond a) = true) →
      sendMessages messages respond 3 = ⟨.error (exhaustionError (respond 2)), 3, 2⟩) := by
  have hmsg : sendMessages messages respond 3 = sendGo respond 3 0 0 := by
    simp [sendMessages, hval]
  refine ⟨?_, ?_, ?_, ?_, ?_⟩
  · intro h
    rw [hmsg] at h
    obtain ⟨k, hk, b, hb⟩ := sendGo_ok_exists_200 respond 3 0 0 h
    exact ⟨k, hk, b, by rw [← Nat.zero_add k]; exact hb⟩
  · intro s b h400 h500 h429 hr
    have e : sendGo respond 3 0 0 =
        if s = 200 then ⟨.ok (), 1, 0⟩
        else if 400 ≤ s ∧ s < 500 ∧ s ≠ 429 then ⟨.error (.apiError s), 1, 0⟩
        else if (2 : ℕ) = 0 then ⟨.error (.retryableError s), 1, 0⟩
        else sendGo respond 2 1 1 :=
      sendGo_succ_response respond 2 0 0 s b hr
    rw [hmsg, e, if_neg (by omega), if_pos ⟨h400, h500, h429⟩]
  · intro b hr
    have e : sendGo respond 3 0 0 =
        if (404 : ℕ) = 200 then ⟨.ok (), 1, 0⟩
        else if 400 ≤ 404 ∧ 404 < 500 ∧ (404 : ℕ) ≠ 429 then ⟨.error (.apiError 404), 1, 0⟩
        else if (2 : ℕ) = 0 then ⟨.error (.retryableError 404), 1, 0⟩
        else sendGo respond 2 1 1 :=
      sendGo_succ_response respond 2 0 0 404 b hr
    rw [hmsg, e, if_neg (by omega), if_pos (by omega)]
  · intro b b2 hr0 hr1
    have e0 : sendGo respond 3 0 0 =
        if (429 : ℕ) = 200 then ⟨.ok (), 1, 0⟩
        else if 400 ≤ 429 ∧ 429 < 500 ∧ (429 : ℕ) ≠ 429 then ⟨.error (.apiError 429), 1, 0⟩
        else if (2 : ℕ) = 0 then ⟨.error (.retryableError 429), 1, 0⟩
        else sendGo respond 2 1 1 :=
      sendGo_succ_response respond 2 0 0 429 b hr0
    have e1 : sendGo respond 2 1 1 =
        if (200 : ℕ) = 200 then ⟨.ok (), 2, 1⟩
        else if 400 ≤ 200 ∧ 200 < 500 ∧ (200 : ℕ) ≠ 429 then ⟨.error (.apiError 200), 2, 1⟩
        else if (1 : ℕ) = 0 then ⟨.error (.retryableError 200), 2, 1⟩
        else sendGo respond 1 2 2 :=
      sendGo_succ_response respond 1 1 1 200 b2 hr1
    rw [hmsg, e0, if_neg (by omega), if_neg (by omega), if_neg (by omega),
        e1, if_pos rfl]
  · intro hretry
    have e0 : sendGo respond 3 0 0 = sendGo respond 2 1 1 :=
      sendGo_retry_step respond 2 0 0 (by omega) (hretry 0 (by omega))
    have e1 : sendGo respond 2 1 1 = sendGo respond 1 2 2 :=
      sendGo_retry_step respond 1 1 1 (by omega) (hretry 1 (by omega))
    have e2 : sendGo respond 1 2 2 = ⟨.error (exhaustionError (respond 2)), 3, 2⟩ :=
      sendGo_retry_last respond 2 2 (hretry 2 (by omega))
    rw [hmsg, e0, e1, e2]

/-- Fixture responder that returns 404 on every attempt. -/
def respond404 : ℕ → HttpOutcome := fun _ => .response 404 "Not Found"

/-- Fixture responder that returns 429 once, then 200. -/
def respond429then200 : ℕ → HttpOutcome := fun a =>
  if a = 0 then .response 429 "rate limited" else .response 200 "ok"

/-- C4 witness: with a valid text payload, a 404 responder gives 1 attempt
and the non-retryable error; a 429-then-200 responder gives 2 attempts,
1 wait, and success. -/
theorem send_retry_classification_witness :
    sendMessages [Message.mkText "snapshot"] respond404 3 =
      ⟨.error (.apiError 404), 1, 0⟩ ∧
    sendMessages [Message.mkText "snapshot"] respond429then200 3 = ⟨.ok (), 2, 1⟩ :=
  ⟨(send_retry_classification [Message.mkText "snapshot"] respond404
      (by decide)).2.2.1 "Not Found" rfl,
   (send_retry_classification [Message.mkText "snapshot"] respond429then200
      (by decide)).2.2.2.1 "rate limited" "ok" rfl rfl⟩

theorem downloadGo_clean (fetch : ℕ → DataFrame) (tickers : Tickers) :
    ∀ N fuel a w, N < fuel →
      (∀ i, i < N → hasNanValues (fetch (a + i)) tickers = .ok true) →
      hasNanValues (fetch (a + N)) tickers = .ok false →
      downloadGo fetch tickers fuel a w = .ok (fetch (a + N), w + N) := by
  intro N
  induction N with
  | zero =>
    intro fuel a w hlt _ hclean
    obtain ⟨f, rfl⟩ : ∃ f, fuel = f + 1 := ⟨fuel - 1, by omega⟩
    rw [downloadGo]
    simp only [Nat.add_zero] at hclean
    rw [hclean]
    simp
  | succ n ih =>
    intro fuel a w hlt hnan hclean
    obtain ⟨f, rfl⟩ : ∃ f, fuel = f + 1 := ⟨fuel - 1, by omega⟩
    rw [downloadGo]
    have h0 := hnan 0 (by omega)
    rw [Nat.add_zero] at h0
    rw [h0, if_neg (by omega)]
    have := ih f (a + 1) (w + 1) (by omega)
      (fun i hi => by
        have := hnan (i + 1) (by omega)
        rw [show a + 1 + i = a + (i + 1) from by omega]
        exact this)
      (by rw [show a + 1 + n = a + (n + 1) from by omega]; exact hclean)
    rw [this, show a + 1 + n = a + (n + 1) from by omega,
        show w + 1 + n = w + (n + 1) from by omega]

theorem downloadGo_allNan (fetch : ℕ → DataFrame) (tickers : Tickers) :
    ∀ fuel a w, 1 ≤ fuel →
      (∀ i, i < fuel → hasNanValues (fetch (a + i)) tickers = .ok true) →
      downloadGo fetch tickers fuel a w = .ok (fetch (a + fuel - 1), w + fuel - 1) := by
  intro fuel
  induction fuel with
  | zero => intro a w h; omega
  | succ f ih =>
    intro a w _ hnan
    rw [downloadGo]
    have h0 := hnan 0 (by omega)
    rw [Nat.add_zero] at h0
    rw [h0]
    by_cases hf : f = 0
    · subst hf
      simp
    · rw [if_neg hf]
      have := ih (a + 1) (w + 1) (by omega)
        (fun i hi => by
          have := hnan (i + 1) (by omega)
          rw [show a + 1 + i = a + (i + 1) from by omega]
          exact this)
      rw [this, show a + 1 + f - 1 = a + (f + 1) - 1 from by omega,
          show w + 1 + f - 1 = w + (f + 1) - 1 from by omega]

/-- C2: for `_download_with_retry` with download results `fetch 0`,
`fetch 1`, … — if the first N results contain NaN in the latest Close of a
requested symbol and result N+1 (index N) does not, with N < maxAttempts,
the function returns that clean result having slept exactly N times; and
if NaN persists through all maxAttempts results it returns the last
fetched result without raising, having slept exactly maxAttempts − 1
times. -/
theorem download_retry_spec (fetch : ℕ → DataFrame) (tickers : Tickers)
    (maxAttempts N : ℕ) :
    (N < maxAttempts →
      (∀ i, i < N → hasNanValues (fetch i) tickers = .ok true) →
      hasNanValues (fetch N) tickers = .ok false →
      downloadWithRetry fetch tickers maxAttempts = .ok (fetch N, N)) ∧
    (1 ≤ maxAttempts →
      (∀ i, i < maxAttempts → hasNanValues (fetch i) tickers = .ok true) →
      downloadWithRetry fetch tickers maxAttempts =
        .ok (fetch (maxAttempts - 1), maxAttempts - 1)) := by
  constructor
  · intro hlt hnan hclean
    have := downloadGo_clean fetch tickers N maxAttempts 0 0 hlt
      (fun i hi => by rw [Nat.zero_add]; exact hnan i hi)
      (by rw [Nat.zero_add]; exact hclean)
    rw [downloadWithRetry, this]
    norm_num
  · intro hge hnan
    have := downloadGo_allNan fetch tickers maxAttempts 0 0 hge
      (fun i hi => by rw [Nat.zero_add]; exact hnan i hi)
    rw [downloadWithRetry, this]
    norm_num

/-- Fixture download sequence: the first result has a NaN latest Close for
VOO, the second is clean for all four handler tickers. -/
def fetchNanThenClean : ℕ → DataFrame := fun a =>
  if a = 0 then
    ⟨[100, 101], [("VT", .frame [("Close", [some 95, some 93])]),
                  ("VOO", .frame [("Close", [some 400, none])]),
                  ("QQQ", .frame [("Close", [some 300, some 301])]),
                  ("JPY=X", .frame [("Close", [some 150, some 151])])]⟩
  else
    ⟨[100, 101], [("VT", .frame [("Close", [some 95, some 93])]),
                  ("VOO", .frame [("Close", [some 400, some 401])]),
                  ("QQQ", .frame [("Close", [some 300, some 301])]),
                  ("JPY=X", .frame [("Close", [some 150, some 151])])]⟩

/-- C2 witness: one NaN-containing result followed by a clean one returns
the clean result after exactly one retry wait. -/
theorem download_retry_spec_witness :
    downloadWithRetry fetchNanThenClean handlerTargets 3 =
      .ok (fetchNanThenClean 1, 1) :=
  (download_retry_spec fetchNanThenClean handlerTargets 3 1).1 (by omega)
    (fun i hi => by
      have : i = 0 := by omega
      subst this
      rfl)
    (by rfl)

theorem hasNanLoop_append_clean (data : DataFrame) (pre rest : List String)
    (h : ∀ x ∈ pre, tickerNan data x = .ok false) :
    hasNanLoop data (pre ++ rest) = hasNanLoop data rest := by
  induction pre with
  | nil => rfl
  | cons t ts ih =>
    rw [List.cons_append, hasNanLoop, h t (by simp)]
    exact ih (fun x hx => h x (by simp [hx]))

/-- C10: `_has_nan_values` classifies structurally missing shapes as NaN
(returning True, hence triggering the retry path): an empty DataFrame (for
either form of the tickers argument), a requested ticker whose column
group is absent (`KeyError`), a ticker group lacking a "Close" column, and
a NaN latest Close (grouped or bare series) — in each case with any
previously scanned tickers reporting clean. -/
theorem has_nan_structural (data : DataFrame) (t : String) (pre post : List String)
    (hpre : ∀ x ∈ pre, tickerNan data x = .ok false) :
    (data.isEmptyDF = true → ∀ ts, hasNanValues data ts = .ok true) ∧
    (data.isEmptyDF = false → data.get? t = none →
      hasNanValues data (.inr (pre ++ t :: post)) = .ok true) ∧
    (data.isEmptyDF = false → ∀ sub, data.get? t = some (.frame sub) →
      sub.lookup "Close" = none →
      hasNanValues data (.inr (pre ++ t :: post)) = .ok true) ∧
    (data.isEmptyDF = false → ∀ sub col, data.get? t = some (.frame sub) →
      sub.lookup "Close" = some col → col.getLast? = some none →
      hasNanValues data (.inr (pre ++ t :: post)) = .ok true) ∧
    (data.isEmptyDF = false → ∀ vals, data.get? t = some (.series vals) →
      vals.getLast? = some none →
      hasNanValues data (.inr (pre ++ t :: post)) = .ok true) := by
  refine ⟨?_, ?_, ?_, ?_, ?_⟩
  · intro hempty ts
    cases ts with
    | inl s => simp [hasNanValues, hempty]
    | inr l => simp [hasNanValues, hempty]
  · intro hne hkey
    simp only [hasNanValues, hne, Bool.false_eq_true, if_false,
      hasNanLoop_append_clean data pre (t :: post) hpre]
    rw [hasNanLoop, tickerNan, hkey]
  · intro hne sub hget hclose
    simp only [hasNanValues, hne, Bool.false_eq_true, if_false,
      hasNanLoop_append_clean data pre (t :: post) hpre]
    rw [hasNanLoop, tickerNan, hget]
    simp [hclose]
  · intro hne sub col hget hclose hlast
    simp only [hasNanValues, hne, Bool.false_eq_true, if_false,
      hasNanLoop_append_clean data pre (t :: post) hpre]
    rw [hasNanLoop, tickerNan, hget]
    simp [hclose, hlast, isNA]
  · intro hne vals hget hlast
    simp only [hasNanValues, hne, Bool.false_eq_true, if_false,
      hasNanLoop_append_clean data pre (t :: post) hpre]
    rw [hasNanLoop, tickerNan, hget]
    simp [hlast, isNA]

/-- Fixture frame in which VT is clean but VOO's column group is absent. -/
def frameMissingVOO : DataFrame :=
  ⟨[100, 101], [("VT", .frame [("Close", [some 95, some 93])])]⟩

/-- C10 witness: an empty frame reports NaN for the handler's ticker list,
and a non-empty frame lacking the VOO group (after a clean VT) reports
NaN. -/
theorem has_nan_structural_witness :
    hasNanValues DataFrame.empty0 handlerTargets = .ok true ∧
    hasNanValues frameMissingVOO (.inr (["VT"] ++ "VOO" :: ["QQQ"])) = .ok true :=
  ⟨(has_nan_structural DataFrame.empty0 "VT" [] []
      (fun x hx => absurd hx (List.not_mem_nil x))).1 rfl handlerTargets,
   (has_nan_structural frameMissingVOO "VOO" ["VT"] ["QQQ"]
      (fun x hx => by
        have : x = "VT" := by simpa using hx
        subst this
        rfl)).2.1 rfl rfl⟩

/-- C3 counterexample: when every download attempt returns an empty result
set, the run does NOT return the market-closed body; instead the
market-closed check raises `IndexError` (an empty index has no last
element) and the error propagates out of the handler. -/
theorem empty_fetch_counterexample :
    lambdaRun (fun _ => DataFrame.empty0) 20000
        (fun _ => ⟨1, 0, .ok (successResult 3)⟩) 3 =
      ⟨0, 0, .error (.py .indexError)⟩ ∧
    (lambdaRun (fun _ => DataFrame.empty0) 20000
        (fun _ => ⟨1, 0, .ok (successResult 3)⟩) 3).result ≠
      .ok marketClosedResult :=
  ⟨rfl, fun h => Except.noConfusion h⟩

theorem downloadGo_empty_index (fetch : ℕ → DataFrame) (tickers : Tickers)
    (hf : ∀ i, (fetch i).index = []) :
    ∀ fuel a w, ∃ d w2,
      downloadGo fetch tickers fuel a w = .ok (d, w2) ∧ d.index = [] := by
  intro fuel
  induction fuel with
  | zero => intro a w; exact ⟨DataFrame.empty0, w, rfl, rfl⟩
  | succ f ih =>
    intro a w
    have hempty : (fetch a).isEmptyDF = true := by
      simp [DataFrame.isEmptyDF, hf a]
    have hnan : hasNanValues (fetch a) tickers = .ok true := by
      cases tickers with
      | inl s => simp [hasNanValues, hempty]
      | inr l => simp [hasNanValues, hempty]
    rw [downloadGo]
    simp only [hnan]
    by_cases hfz : f = 0
    · rw [if_pos hfz]
      exact ⟨fetch a, w, rfl, hf a⟩
    · rw [if_neg hfz]
      exact ih (a + 1) (w + 1)

/-- C3 amended: when the data fetch yields an empty result set on every
attempt, the handler's market-closed check raises `IndexError`, which
propagates to the caller; the run is not converted into the market-closed
no-op. -/
theorem empty_fetch_raises (fetch : ℕ → DataFrame) (today : ℤ)
    (downstream : DataFrame → RunTrace) (maxAttempts : ℕ)
    (hf : ∀ i, (fetch i).index = []) :
    lambdaRun fetch today downstream maxAttempts = ⟨0, 0, .error (.py .indexError)⟩ := by
  obtain ⟨d, w2, hdl, hidx⟩ :=
    downloadGo_empty_index fetch handlerTargets hf maxAttempts 0 0
  rw [lambdaRun, downloadWithRetry, hdl]
  have hmc : isMarketClosed d today = .error .indexError := by
    rw [isMarketClosed, hidx]
    rfl
  simp [runAcquisitionStage, hmc]

/-- C3 amended witness: the concrete all-empty fetch raises. -/
theorem empty_fetch_raises_witness :
    lambdaRun (fun _ => DataFrame.empty0) 19000
        (fun _ => ⟨0, 0, .ok (successResult 0)⟩) 3 =
      ⟨0, 0, .error (.py .indexError)⟩ :=
  empty_fetch_raises (fun _ => DataFrame.empty0) 19000
    (fun _ => ⟨0, 0, .ok (successResult 0)⟩) 3 (fun _ => rfl)

end ETFTracker
